import Mathlib

/-!
# Verification of the telepathy-input popup controller

A shallow embedding of the repository's core logic:

* `shift_window.py` — the `ShiftWindow` popup controller: the intent queue
  drained by the update loop (`start_monitoring`), the window lifecycle
  operations (`create_window_main_thread`, `show_window`, `hide_window`,
  `close_window`), the auto-hide timer (`start_timer`), and the keyboard
  callbacks (`on_shift_press`, `on_shift_release`).
* `browser_detector.py` — the `BrowserDetector` probe functions
  (`is_x_com_open_mac`, `get_frontmost_application`,
  `get_active_window_title_mac`, `is_browser_active_with_x`,
  `is_browser_frontmost_with_x_com`).

Machine-level resources (native Tk windows, `threading.Timer` deadlines) are
tracked explicitly so that statements about "live window resources" and
"outstanding hide-deadlines" are statements about allocation and cancellation,
not about the controller's own flags.
-/

namespace TelepathyInput

/-- An intent drained by the update loop: the `"create_window"`,
`"hide_window"` and `"close_window"` strings put on `self.event_queue`. -/
inductive Intent
  | createOrShow
  | hide
  | destroy
deriving DecidableEq, Repr

/-- The `ShiftWindow` controller state, together with explicit bookkeeping of
the machine resources it manipulates:

* `window`, `shift_pressed`, `window_timer`, `window_visible`,
  `window_created` are the Python object's fields (`__init__`), with the Tk
  handle and the `threading.Timer` handle modelled as ids.
* `liveWindows` is the list of native window resources currently allocated
  (created and not yet destroyed).
* `pendingTimers` is the list of scheduled hide-deadlines that have been
  neither cancelled nor fired.
* `nextWin` / `nextTimer` supply fresh ids. -/
structure SW where
  window : Option Nat
  shift_pressed : Bool
  window_timer : Option Nat
  window_visible : Bool
  window_created : Bool
  liveWindows : List Nat
  pendingTimers : List Nat
  nextWin : Nat
  nextTimer : Nat
deriving DecidableEq, Repr

/-- The state built by `ShiftWindow.__init__`. -/
def initSW : SW :=
  { window := none, shift_pressed := false, window_timer := none,
    window_visible := false, window_created := false,
    liveWindows := [], pendingTimers := [], nextWin := 0, nextTimer := 0 }

/-- Models `ShiftWindow.start_timer`: cancel the timer tracked by `self.window_timer`
(if any) and schedule a fresh 2-second deadline.  Cancelling an id that is no
longer pending (already fired) is a no-op, exactly like `Timer.cancel`. -/
def start_timer (s : SW) : SW :=
  let pend :=
    match s.window_timer with
    | some t => s.pendingTimers.erase t
    | none => s.pendingTimers
  { s with pendingTimers := pend ++ [s.nextTimer],
           window_timer := some s.nextTimer,
           nextTimer := s.nextTimer + 1 }

/-- Models `ShiftWindow.hide_window`: withdraw the window when it exists and is
visible, then unconditionally set `self.window_timer = None` (without
cancelling the underlying timer). -/
def hide_window (s : SW) : SW :=
  let s1 :=
    if s.window.isSome && s.window_visible then
      { s with window_visible := false }
    else s
  { s1 with window_timer := none }

/-- Models `ShiftWindow.close_window`: destroy the native window when one is tracked,
reset the flags, then unconditionally set `self.window_timer = None` (without
cancelling the underlying timer). -/
def close_window (s : SW) : SW :=
  let s1 :=
    match s.window with
    | some w =>
        { s with liveWindows := s.liveWindows.erase w, window := none,
                 window_created := false, window_visible := false }
    | none => s
  { s1 with window_timer := none }

/-- Models `ShiftWindow.create_window_main_thread`: allocate a fresh native window
resource and return its handle. -/
def create_window_main_thread (s : SW) : SW × Nat :=
  ({ s with liveWindows := s.liveWindows ++ [s.nextWin], nextWin := s.nextWin + 1 },
   s.nextWin)

/-- Models `ShiftWindow.show_window` on a valid window: deiconify when the window
exists and is not visible.  (The `tk.TclError` recovery branch of the Python
function is not reachable in fault-free runs.) -/
def show_window (s : SW) : SW :=
  if s.window.isSome && !s.window_visible then
    { s with window_visible := true }
  else s

/-- One intent being applied by the update loop of
`ShiftWindow.start_monitoring` (the `if event == ...` dispatch). -/
def applyIntent (s : SW) : Intent → SW
  | .createOrShow =>
      if !s.window_created then
        let p := create_window_main_thread s
        start_timer { p.1 with window := some p.2, window_visible := true,
                               window_created := true }
      else if !s.window_visible then
        start_timer (show_window s)
      else
        start_timer s
  | .hide => hide_window s
  | .destroy => close_window s

/-- Applying a whole sequence of drained intents in order. -/
def applyAll (s : SW) (l : List Intent) : SW :=
  l.foldl applyIntent s

/-- The spec's `WindowLifecycleState`. -/
inductive LState
  | absent
  | hidden
  | visible
deriving DecidableEq, Repr

/-- The lifecycle state as the controller's flags encode it:
Absent = no window created, Visible = created and shown,
Hidden = created but withdrawn. -/
def lifecycleState (s : SW) : LState :=
  if !s.window_created then .absent
  else if s.window_visible then .visible
  else .hidden

/-- The controller's fault-free state invariant:
the `window_created` flag tracks the handle, the handle tracks the unique
live resource, visibility implies creation, and the timer handle is cleared
whenever the window is not visible. -/
def invB (s : SW) : Bool :=
  (s.window_created == s.window.isSome) &&
  (match s.window with
   | some w => s.liveWindows == [w]
   | none => s.liveWindows == []) &&
  (!s.window_visible || s.window_created) &&
  (s.window_visible || s.window_timer == none)

theorem invB_initSW : invB initSW = true := by decide

theorem invB_applyIntent (s : SW) (i : Intent) (h : invB s = true) :
    invB (applyIntent s i) = true := by
  obtain ⟨win, sp, wt, wv, wc, live, pend, nw, nt⟩ := s
  cases i <;> cases win <;> cases wv <;> cases wc <;>
    simp_all [invB, applyIntent, start_timer, hide_window, close_window,
      create_window_main_thread, show_window]

theorem invB_applyAll (l : List Intent) : invB (applyAll initSW l) = true := by
  suffices h : ∀ s, invB s = true → invB (applyAll s l) = true from
    h initSW invB_initSW
  induction l with
  | nil => intro s hs; exact hs
  | cons i rest ih =>
      intro s hs
      exact ih (applyIntent s i) (invB_applyIntent s i hs)

/-- C1 -- For every sequence of CreateOrShow/Hide/Destroy intents applied by
the update loop, at most one live notification-window resource exists, a new
window is allocated only when `window_created` is false, and once a window is
destroyed the state records no live resource until the next allocation. -/
theorem at_most_one_live_window (l : List Intent) :
    (applyAll initSW l).liveWindows.length ≤ 1 ∧
    ((applyAll initSW l).window_created = true →
      (applyIntent (applyAll initSW l) .createOrShow).liveWindows
        = (applyAll initSW l).liveWindows) ∧
    ((applyAll initSW l).window_created = false →
      (applyAll initSW l).liveWindows = []) := by
  have h := invB_applyAll l
  set s := applyAll initSW l with hs
  obtain ⟨win, sp, wt, wv, wc, live, pend, nw, nt⟩ := s
  cases win <;> cases wc <;> cases wv <;>
    simp_all [invB, applyIntent, start_timer, show_window]

/-- Witness for `at_most_one_live_window` at the concrete sequence
`[CreateOrShow, Destroy, CreateOrShow]`. -/
theorem at_most_one_live_window_witness :
    (applyAll initSW [.createOrShow, .destroy, .createOrShow]).liveWindows.length ≤ 1 ∧
    (applyIntent (applyAll initSW [.createOrShow, .destroy, .createOrShow])
        .createOrShow).liveWindows
      = (applyAll initSW [.createOrShow, .destroy, .createOrShow]).liveWindows := by
  refine ⟨(at_most_one_live_window _).1, ?_⟩
  exact (at_most_one_live_window [.createOrShow, .destroy, .createOrShow]).2.1 (by decide)

/-- C2 -- Applying a CreateOrShow intent follows the three-case dispatch on
the lifecycle state: when Absent it allocates the window, transitions to
Visible and arms exactly one auto-hide timer; when Hidden it re-shows the
window (no allocation), transitions to Visible and arms the timer; when
Visible it only re-arms the auto-hide timer and makes no visual change. -/
theorem createOrShow_dispatch (s : SW) (h : invB s = true) :
    (lifecycleState s = .absent →
      (applyIntent s .createOrShow).window = some s.nextWin ∧
      (applyIntent s .createOrShow).liveWindows = [s.nextWin] ∧
      lifecycleState (applyIntent s .createOrShow) = .visible ∧
      (applyIntent s .createOrShow).window_timer = some s.nextTimer ∧
      (applyIntent s .createOrShow).pendingTimers = s.pendingTimers ++ [s.nextTimer]) ∧
    (lifecycleState s = .hidden →
      (applyIntent s .createOrShow).window = s.window ∧
      (applyIntent s .createOrShow).liveWindows = s.liveWindows ∧
      lifecycleState (applyIntent s .createOrShow) = .visible ∧
      (applyIntent s .createOrShow).window_timer = some s.nextTimer ∧
      (applyIntent s .createOrShow).pendingTimers = s.pendingTimers ++ [s.nextTimer]) ∧
    (lifecycleState s = .visible →
      (applyIntent s .createOrShow).window = s.window ∧
      (applyIntent s .createOrShow).liveWindows = s.liveWindows ∧
      (applyIntent s .createOrShow).window_visible = s.window_visible ∧
      lifecycleState (applyIntent s .createOrShow) = .visible ∧
      (applyIntent s .createOrShow).window_timer = some s.nextTimer) := by
  obtain ⟨win, sp, wt, wv, wc, live, pend, nw, nt⟩ := s
  cases win <;> cases wc <;> cases wv <;>
    simp_all [invB, applyIntent, start_timer, show_window,
      create_window_main_thread, lifecycleState]

/-- Witness for `createOrShow_dispatch` at the initial (Absent) state. -/
theorem createOrShow_dispatch_witness :
    (applyIntent initSW .createOrShow).window = some 0 ∧
    (applyIntent initSW .createOrShow).liveWindows = [0] ∧
    lifecycleState (applyIntent initSW .createOrShow) = .visible ∧
    (applyIntent initSW .createOrShow).window_timer = some 0 ∧
    (applyIntent initSW .createOrShow).pendingTimers = [0] :=
  (createOrShow_dispatch initSW (by decide)).1 (by decide)

/-- C4 -- A Hide intent in state Hidden or Absent leaves the whole controller
state unchanged (a no-op, the timer handle included); a Hide in state Visible
withdraws the window without destroying the resource, transitions to Hidden
and clears the timer handle. -/
theorem hide_idempotent_or_withdraw (s : SW) (h : invB s = true) :
    ((lifecycleState s = .hidden ∨ lifecycleState s = .absent) →
      applyIntent s .hide = s) ∧
    (lifecycleState s = .visible →
      (applyIntent s .hide).window_visible = false ∧
      (applyIntent s .hide).window = s.window ∧
      (applyIntent s .hide).liveWindows = s.liveWindows ∧
      lifecycleState (applyIntent s .hide) = .hidden ∧
      (applyIntent s .hide).window_timer = none) := by
  obtain ⟨win, sp, wt, wv, wc, live, pend, nw, nt⟩ := s
  cases win <;> cases wc <;> cases wv <;>
    simp_all [invB, applyIntent, hide_window, lifecycleState]

/-- Witness for `hide_idempotent_or_withdraw`: a Hide in the Hidden state
reached by `[CreateOrShow, Hide]` changes nothing. -/
theorem hide_idempotent_or_withdraw_witness :
    applyIntent (applyAll initSW [.createOrShow, .hide]) .hide
      = applyAll initSW [.createOrShow, .hide] :=
  (hide_idempotent_or_withdraw (applyAll initSW [.createOrShow, .hide])
    (by decide)).1 (by decide)

/-- One pass of the `while self.running` loop body in
`ShiftWindow.start_monitoring`: a single `event_queue.get_nowait()` — at most
one intent is popped and applied per tick (`queue.Empty` is swallowed).
Returns the new state, the remaining queue, and the intents applied on this
tick. -/
def loopTick (s : SW) (q : List Intent) : SW × List Intent × List Intent :=
  match q with
  | [] => (s, [], [])
  | i :: rest => (applyIntent s i, rest, [i])

/-- Running `n` ticks of the update loop against a queue of pending intents;
the third component collects the intents applied, in application order. -/
def runTicks (s : SW) (q : List Intent) : Nat → SW × List Intent × List Intent
  | 0 => (s, q, [])
  | n + 1 =>
      match q with
      | [] => runTicks s [] n
      | i :: rest =>
          let r := runTicks (applyIntent s i) rest n
          (r.1, r.2.1, i :: r.2.2)

/-- Counterexample to C3 as stated: with two intents pending, a single
update-loop tick applies only the first of them — the queue is not drained on
that tick. -/
theorem single_tick_does_not_drain :
    (runTicks initSW [.hide, .createOrShow] 1).2.1 = [.createOrShow] ∧
    (runTicks initSW [.hide, .createOrShow] 1).2.2 = [.hide] := by decide

/-- C3 (amended) -- Each update-loop tick pops at most one pending intent,
the oldest, and applies it; over any number of ticks the intents applied are
exactly the queue's prefix in enqueue order (FIFO, no reordering or
coalescing). -/
theorem ticks_apply_fifo_prefix :
    ∀ (n : Nat) (s : SW) (q : List Intent),
      (runTicks s q n).2.2 = q.take n ∧ (runTicks s q n).2.1 = q.drop n := by
  intro n
  induction n with
  | zero => intro s q; exact ⟨rfl, rfl⟩
  | succ n ih =>
      intro s q
      cases q with
      | nil => simpa [runTicks] using ih s []
      | cons i rest =>
          have h := ih (applyIntent s i) rest
          simp [runTicks, h.1, h.2]

/-- Does `hay` start with `needle`?  (Helper for Python's substring test.) -/
def startsWithChars : List Char → List Char → Bool
  | [], _ => true
  | _ :: _, [] => false
  | a :: as, b :: bs => a == b && startsWithChars as bs

/-- Does `needle` occur contiguously in `hay`?  (Python's `needle in hay`.) -/
def containsChars (needle : List Char) : List Char → Bool
  | [] => startsWithChars needle []
  | b :: bs => startsWithChars needle (b :: bs) || containsChars needle bs

/-- Python's `needle in hay` on strings. -/
def pyContains (hay needle : String) : Bool :=
  containsChars needle.data hay.data

/-- Python's `str.lower()`. -/
def pyLower (s : String) : String :=
  ⟨s.data.map Char.toLower⟩

/-- Python's `str.strip()`: drop leading and trailing whitespace. -/
def pyStrip (s : String) : String :=
  ⟨((s.data.dropWhile Char.isWhitespace).reverse.dropWhile
      Char.isWhitespace).reverse⟩

/-- C6 -- `'shift' in key_name`, the Python substring test of the keyboard
callbacks. -/
def key_has_shift (name : String) : Bool :=
  pyContains name "shift"

/-- Models `ShiftWindow.on_shift_press`: producer side of the intent queue.  Takes
the controller state and the queue, returns both updated. -/
def on_shift_press (s : SW) (q : List Intent) (name : String) :
    SW × List Intent :=
  if key_has_shift name && !s.shift_pressed then
    ({ s with shift_pressed := true }, q ++ [.createOrShow])
  else (s, q)

/-- Models `ShiftWindow.on_shift_release`. -/
def on_shift_release (s : SW) (q : List Intent) (name : String) :
    SW × List Intent :=
  if key_has_shift name then ({ s with shift_pressed := false }, q)
  else (s, q)

/-- C6 -- A press of a Shift variant enqueues one CreateOrShow iff
`shift_pressed` is currently false (and then sets it); a press while the flag
is set enqueues nothing; a release of a Shift variant clears the flag
unconditionally and never enqueues an intent. -/
theorem shift_key_handlers (s : SW) (q : List Intent) (name : String) :
    (key_has_shift name = true → s.shift_pressed = false →
      on_shift_press s q name
        = ({ s with shift_pressed := true }, q ++ [.createOrShow])) ∧
    (s.shift_pressed = true → on_shift_press s q name = (s, q)) ∧
    (key_has_shift name = false → on_shift_press s q name = (s, q)) ∧
    (key_has_shift name = true →
      (on_shift_release s q name).1.shift_pressed = false) ∧
    (on_shift_release s q name).2 = q := by
  refine ⟨?_, ?_, ?_, ?_, ?_⟩
  · intro h1 h2; simp [on_shift_press, h1, h2]
  · intro h1; simp [on_shift_press, h1]
  · intro h1; simp [on_shift_press, h1]
  · intro h1; simp [on_shift_release, h1]
  · unfold on_shift_release; split <;> rfl

/-- Witness for `shift_key_handlers` at `name = "shift_r"` from the initial
state. -/
theorem shift_key_handlers_witness :
    on_shift_press initSW [] "shift_r"
        = ({ initSW with shift_pressed := true }, [.createOrShow]) ∧
    (on_shift_release initSW [] "shift_r").1.shift_pressed = false :=
  ⟨(shift_key_handlers initSW [] "shift_r").1 (by decide) (by decide),
   (shift_key_handlers initSW [] "shift_r").2.2.2.1 (by decide)⟩

/-- Counterexample to C7 as stated: after the intent sequence
`[CreateOrShow, Destroy, CreateOrShow]` two hide-deadlines are outstanding —
`close_window` cleared the timer handle without cancelling the scheduled
firing, so the next arm could not cancel it. -/
theorem two_pending_deadlines :
    (applyAll initSW [.createOrShow, .destroy, .createOrShow]).pendingTimers
      = [0, 1] ∧
    ¬ (applyAll initSW
        [.createOrShow, .destroy, .createOrShow]).pendingTimers.length ≤ 1 := by
  decide

/-- C7 (amended) -- `start_timer` cancels the firing tracked by the current
timer handle before scheduling the new deadline: whenever every outstanding
deadline is the one tracked by the handle (so at most one), arming leaves
exactly the newly scheduled deadline outstanding, tracked by the handle. -/
theorem start_timer_replaces_tracked_deadline (s : SW)
    (hlen : s.pendingTimers.length ≤ 1)
    (htrack : ∀ t ∈ s.pendingTimers, s.window_timer = some t) :
    (start_timer s).pendingTimers = [s.nextTimer] ∧
    (start_timer s).window_timer = some s.nextTimer := by
  refine ⟨?_, rfl⟩
  match hp : s.pendingTimers, hlen with
  | [], _ =>
      simp only [start_timer]
      cases s.window_timer <;> simp [hp]
  | [t], _ =>
      have ht := htrack t (by simp [hp])
      simp [start_timer, ht, hp]

/-- Witness for `start_timer_replaces_tracked_deadline` in the Visible state
reached by one CreateOrShow (one outstanding deadline, tracked). -/
theorem start_timer_replaces_tracked_deadline_witness :
    (start_timer (applyAll initSW [.createOrShow])).pendingTimers = [1] ∧
    (start_timer (applyAll initSW [.createOrShow])).window_timer = some 1 :=
  start_timer_replaces_tracked_deadline (applyAll initSW [.createOrShow])
    (by decide) (by decide)

/-- Environment action: the native window tracked by `self.window` is
destroyed externally (e.g. closed by the window manager); the resource
disappears but the controller's fields are untouched. -/
def external_destroy (s : SW) : SW :=
  { s with liveWindows :=
      match s.window with
      | some w => s.liveWindows.erase w
      | none => s.liveWindows }

/-- The UI refresh tick of `ShiftWindow.start_monitoring` (lines 226-232)
when `self.window.update()` raises `tk.TclError` because the window was
closed externally: the handler sets `self.window = None` and nothing else. -/
def update_tick_invalid (s : SW) : SW :=
  if s.window.isSome then { s with window := none } else s

/-- C5 -- Evaluation at the failing input: from the Visible state reached by
one CreateOrShow, destroy the window externally and let the refresh tick
report it invalid.  The handler clears only the window handle:
`window_created` and `window_visible` stay `true`, so the state is not
Absent, and a later CreateOrShow allocates nothing (it merely restarts the
timer) — no fresh window ever appears. -/
theorem external_close_leaves_created_flag :
    (update_tick_invalid (external_destroy
        (applyAll initSW [.createOrShow]))).window = none ∧
    (update_tick_invalid (external_destroy
        (applyAll initSW [.createOrShow]))).window_created = true ∧
    (update_tick_invalid (external_destroy
        (applyAll initSW [.createOrShow]))).window_visible = true ∧
    lifecycleState (update_tick_invalid (external_destroy
        (applyAll initSW [.createOrShow]))) ≠ .absent ∧
    (applyIntent (update_tick_invalid (external_destroy
        (applyAll initSW [.createOrShow]))) .createOrShow).liveWindows = [] := by
  decide

/-! ## Embedding of browser_detector.py -/

/-- Outcome of one `subprocess.run(['osascript', ...])` call: either the
process completed (with a return code and captured stdout) or the call raised
`subprocess.TimeoutExpired` / `subprocess.CalledProcessError`. -/
inductive RunResult
  | success (returncode : Nat) (stdout : String)
  | failure
deriving DecidableEq, Repr

/-- The operating-system environment a `BrowserDetector` call runs against:
`system` is `platform.system()`, the remaining fields are the outcomes of the
four kinds of AppleScript invocations the module makes. -/
structure ProbeEnv where
  system : String
  frontmostQuery : RunResult
  titleQuery : RunResult
  tabQuery : String → RunResult
  frontTabQuery : String → RunResult

/-- The keys of the `browsers` dict in `is_x_com_open_mac` — also the keys of
the `browser_scripts` dict in `is_browser_frontmost_with_x_com`, in the same
order. -/
def scriptedBrowsers : List String := ["Safari", "Google Chrome", "Arc"]

/-- The loop body of `BrowserDetector.is_x_com_open_mac` over the remaining
browsers: a query that times out or errors is skipped (`continue`), a query
whose stripped stdout is `"true"` returns that browser, anything else falls
through to the next browser. -/
def openMacLoop (env : ProbeEnv) : List String → Bool × Option String
  | [] => (false, none)
  | b :: rest =>
      match env.tabQuery b with
      | .success _ out =>
          if pyStrip out == "true" then (true, some b) else openMacLoop env rest
      | .failure => openMacLoop env rest

/-- Models `BrowserDetector.is_x_com_open_mac`. -/
def is_x_com_open_mac (env : ProbeEnv) : Bool × Option String :=
  openMacLoop env scriptedBrowsers

/-- Models `BrowserDetector.get_active_window_title_mac`: stripped stdout on
success, `""` on any exception. -/
def get_active_window_title_mac (env : ProbeEnv) : String :=
  match env.titleQuery with
  | .success _ out => pyStrip out
  | .failure => ""

/-- Models `BrowserDetector.get_frontmost_application`: gives `none` off macOS, on a
nonzero return code, or on an exception; the stripped stdout otherwise. -/
def get_frontmost_application (env : ProbeEnv) : Option String :=
  if env.system != "Darwin" then none
  else
    match env.frontmostQuery with
    | .success rc out => if rc == 0 then some (pyStrip out) else none
    | .failure => none

/-- The window-title heuristic
`"x.com" in title.lower() or " / X" in title or "(@" in title`. -/
def title_has_x (title : String) : Bool :=
  pyContains (pyLower title) "x.com" || pyContains title " / X" ||
    pyContains title "(@"

/-- Models `BrowserDetector.is_browser_active_with_x`. -/
def is_browser_active_with_x (env : ProbeEnv) : Bool :=
  if env.system == "Darwin" then title_has_x (get_active_window_title_mac env)
  else false

/-- The `browser_apps` list of `is_browser_frontmost_with_x_com`. -/
def browser_apps : List String :=
  ["Safari", "Google Chrome", "Arc", "Firefox", "Microsoft Edge",
   "Brave Browser", "Opera", "Vivaldi"]

/-- The first entry of `l` whose lowercase form occurs in the lowercase form
of `app` (the `for browser in ...: if browser.lower() in ...` loops). -/
def matchBrowser (app : String) : List String → Option String
  | [] => none
  | b :: rest =>
      if pyContains (pyLower app) (pyLower b) then some b
      else matchBrowser app rest

/-- The frontmost-browser determination at the top of
`is_browser_frontmost_with_x_com`: `None` when the frontmost application
cannot be determined, is falsy (`""`), or is not a known browser. -/
def frontmostBrowserOf (env : ProbeEnv) : Option String :=
  match get_frontmost_application env with
  | none => none
  | some app => if app == "" then none else matchBrowser app browser_apps

/-- Models `BrowserDetector.is_browser_frontmost_with_x_com`. -/
def is_browser_frontmost_with_x_com (env : ProbeEnv) : Bool × Option String :=
  if env.system != "Darwin" then (false, none)
  else
    match frontmostBrowserOf env with
    | none => (false, none)
    | some fb =>
        match matchBrowser fb scriptedBrowsers with
        | none => (title_has_x (get_active_window_title_mac env), some fb)
        | some k =>
            match env.frontTabQuery k with
            | .success _ out => (pyStrip out == "true", some fb)
            | .failure => (false, some fb)

/-- C9 -- Probe failures yield negative results: `is_x_com_open_mac` returns
`(False, None)` when every per-browser query fails or reports something other
than `"true"`, and `is_browser_frontmost_with_x_com` returns a `False` first
component whenever the per-browser script it invokes times out or errors. -/
theorem probe_failures_are_negative (env : ProbeEnv)
    (hall : ∀ b ∈ scriptedBrowsers, ∀ rc out,
      env.tabQuery b = .success rc out → ¬ pyStrip out = "true") :
    is_x_com_open_mac env = (false, none) ∧
    (∀ fb k, frontmostBrowserOf env = some fb →
      matchBrowser fb scriptedBrowsers = some k →
      env.frontTabQuery k = .failure →
      (is_browser_frontmost_with_x_com env).1 = false) := by
  constructor
  · show openMacLoop env scriptedBrowsers = (false, none)
    have h : ∀ l : List String,
        (∀ b ∈ l, ∀ rc out, env.tabQuery b = .success rc out →
          ¬ pyStrip out = "true") →
        openMacLoop env l = (false, none) := by
      intro l
      induction l with
      | nil => intro _; rfl
      | cons b rest ih =>
          intro hb
          simp only [openMacLoop]
          cases hq : env.tabQuery b with
          | success rc out =>
              have hne := hb b (by simp) rc out hq
              have : (pyStrip out == "true") = false := by
                simpa [beq_iff_eq] using hne
              simp only [this, Bool.false_eq_true, if_neg]
              exact ih fun x hx => hb x (List.mem_cons_of_mem b hx)
          | failure =>
              exact ih fun x hx => hb x (List.mem_cons_of_mem b hx)
    exact h scriptedBrowsers hall
  · intro fb k hfb hk hfail
    have hsys : (env.system != "Darwin") = false := by
      cases hs : env.system != "Darwin"
      · rfl
      · exfalso
        have : frontmostBrowserOf env = none := by
          simp [frontmostBrowserOf, get_frontmost_application, hs]
        simp [this] at hfb
    simp [is_browser_frontmost_with_x_com, hsys, hfb, hk, hfail]

/-- Witness for `probe_failures_are_negative`: on a macOS environment whose
frontmost application is Safari and whose every AppleScript call times out,
both probes report the negative result. -/
theorem probe_failures_are_negative_witness :
    is_x_com_open_mac
        { system := "Darwin", frontmostQuery := .success 0 "Safari",
          titleQuery := .failure, tabQuery := fun _ => .failure,
          frontTabQuery := fun _ => .failure } = (false, none) ∧
    (is_browser_frontmost_with_x_com
        { system := "Darwin", frontmostQuery := .success 0 "Safari",
          titleQuery := .failure, tabQuery := fun _ => .failure,
          frontTabQuery := fun _ => .failure }).1 = false := by
  have h := probe_failures_are_negative
    { system := "Darwin", frontmostQuery := .success 0 "Safari",
      titleQuery := .failure, tabQuery := fun _ => .failure,
      frontTabQuery := fun _ => .failure }
    (by intro b _ rc out h; exact absurd h (by simp))
  exact ⟨h.1, h.2 "Safari" "Safari" (by decide) (by decide) rfl⟩

/-- C10 -- On any non-macOS system the frontmost probes report inactive
without consulting the environment: `is_browser_frontmost_with_x_com`
returns `(False, None)` and `is_browser_active_with_x` returns `False`. -/
theorem non_darwin_probes_inactive (env : ProbeEnv)
    (h : ¬ env.system = "Darwin") :
    is_browser_frontmost_with_x_com env = (false, none) ∧
    is_browser_active_with_x env = false := by
  have h1 : (env.system != "Darwin") = true := by
    simpa [bne_iff_ne] using h
  have h2 : (env.system == "Darwin") = false := by
    simpa [beq_iff_eq] using h
  constructor
  · simp [is_browser_frontmost_with_x_com, h1]
  · simp [is_browser_active_with_x, h2]

/-- Witness for `non_darwin_probes_inactive` on a Linux environment whose
queries would all succeed with `"true"`. -/
theorem non_darwin_probes_inactive_witness :
    is_browser_frontmost_with_x_com
        { system := "Linux", frontmostQuery := .success 0 "Safari",
          titleQuery := .success 0 "x.com", tabQuery := fun _ => .success 0 "true",
          frontTabQuery := fun _ => .success 0 "true" } = (false, none) ∧
    is_browser_active_with_x
        { system := "Linux", frontmostQuery := .success 0 "Safari",
          titleQuery := .success 0 "x.com", tabQuery := fun _ => .success 0 "true",
          frontTabQuery := fun _ => .success 0 "true" } = false :=
  non_darwin_probes_inactive _ (by decide)

/-! ## Styling selection from `BrowserStatus` -/

/-- The two stylings of the notification window. -/
inductive WindowStyle
  | activeStyle
  | inactiveStyle
deriving DecidableEq, Repr

/-- Modelled from the spec: the integration that connects the Browser Probe
to the notification window's appearance ("BrowserStatus ... read by the
update loop only at window-creation time to select styling, not re-applied
retroactively to an already-visible window") is not present in the source
files — `browser_detector.py` is never imported by `shift_window.py` or
`main.py`.  The controller state carries the latest `BrowserStatus` snapshot
(`siteFrontmostActive`), the lifecycle state, and the styling the currently
allocated window was created with. -/
structure StyledCtrl where
  browserStatus : Bool
  lifecycle : LState
  windowStyle : Option WindowStyle
deriving DecidableEq, Repr

/-- Modelled from the spec: styling is selected from the `BrowserStatus`
snapshot — active status yields the active styling. -/
def styleFor (active : Bool) : WindowStyle :=
  if active then .activeStyle else .inactiveStyle

/-- Modelled from the spec: the periodic browser poll updates the
`BrowserStatus` snapshot and nothing else — in particular it never touches
the styling of an existing window. -/
def pollBrowserStatus (b : Bool) (c : StyledCtrl) : StyledCtrl :=
  { c with browserStatus := b }

/-- Modelled from the spec: a CreateOrShow applied by the update loop styles
the window from the current `BrowserStatus` snapshot when it creates
(Absent) or re-shows (Hidden) the window, and leaves an already-Visible
window untouched apart from the timer refresh. -/
def applyStyledCreate (c : StyledCtrl) : StyledCtrl :=
  match c.lifecycle with
  | .absent => { c with lifecycle := .visible,
                        windowStyle := some (styleFor c.browserStatus) }
  | .hidden => { c with lifecycle := .visible,
                        windowStyle := some (styleFor c.browserStatus) }
  | .visible => c

/-- C8 -- The styling is the `BrowserStatus` snapshot current at
window-creation (or re-show) time: creating while the probe reports the site
frontmost-active yields the active styling, and a later status change while
the window is Visible leaves the visible window's styling (and visibility)
unchanged — only the next creation re-reads the snapshot. -/
theorem styling_fixed_at_creation (c : StyledCtrl) (b : Bool)
    (habs : c.lifecycle = .absent) (hact : c.browserStatus = true) :
    (applyStyledCreate c).windowStyle = some .activeStyle ∧
    (applyStyledCreate c).lifecycle = .visible ∧
    pollBrowserStatus b (applyStyledCreate c)
        = { applyStyledCreate c with browserStatus := b } ∧
    (pollBrowserStatus b (applyStyledCreate c)).windowStyle
        = (applyStyledCreate c).windowStyle ∧
    (applyStyledCreate (pollBrowserStatus b (applyStyledCreate c))).windowStyle
        = (applyStyledCreate c).windowStyle := by
  have h1 : applyStyledCreate c
      = { c with lifecycle := .visible, windowStyle := some .activeStyle } := by
    simp [applyStyledCreate, habs, styleFor, hact]
  refine ⟨by simp [h1], by simp [h1], rfl, rfl, ?_⟩
  rw [h1]; rfl

/-- Witness for `styling_fixed_at_creation`: created with the probe active,
the window keeps the active styling after the probe flips to inactive. -/
theorem styling_fixed_at_creation_witness :
    (applyStyledCreate
        { browserStatus := true, lifecycle := .absent,
          windowStyle := none }).windowStyle = some .activeStyle ∧
    (applyStyledCreate (pollBrowserStatus false (applyStyledCreate
        { browserStatus := true, lifecycle := .absent,
          windowStyle := none }))).windowStyle = some .activeStyle := by
  have h := styling_fixed_at_creation
    { browserStatus := true, lifecycle := .absent, windowStyle := none }
    false (by decide) (by decide)
  refine ⟨h.1, ?_⟩
  rw [h.2.2.2.2]
  exact h.1

end TelepathyInput
